import Mathlib

/-!
Verification of the `attachment` Ansible module
(`src/plugins/modules/attachment.py`): a shallow embedding of its data
model and control flow, together with proofs of its specification
properties.

Bytes are modelled as natural numbers, file contents as finite byte
lists, the local filesystem as a partial map from paths to contents, and
the remote ITSM system as a function from attachment identifiers to HTTP
fetch results.  `hashlib.sha256` is embedded as a genuine SHA-256
implementation over byte lists, with the incremental `update` /
`hexdigest` interface modelled by an absorbed-byte buffer.
-/

namespace Attachment

/-- 2^32, the modulus for SHA-256 word arithmetic. -/
def M32 : Nat := 4294967296

/-- Right rotation of a 32-bit word by `n` bits. -/
def rotr (n x : Nat) : Nat := (x / 2 ^ n + x % 2 ^ n * 2 ^ (32 - n)) % M32

/-- Logical right shift of a 32-bit word by `n` bits. -/
def shr (n x : Nat) : Nat := x / 2 ^ n

/-- SHA-256 choice function `Ch`. -/
def chooseBits (x y z : Nat) : Nat := (x &&& y) ^^^ ((x ^^^ (M32 - 1)) &&& z)

/-- SHA-256 majority function `Maj`. -/
def majority (x y z : Nat) : Nat := (x &&& y) ^^^ (x &&& z) ^^^ (y &&& z)

/-- SHA-256 upper-case sigma 0. -/
def bigSigma0 (x : Nat) : Nat := rotr 2 x ^^^ rotr 13 x ^^^ rotr 22 x

/-- SHA-256 upper-case sigma 1. -/
def bigSigma1 (x : Nat) : Nat := rotr 6 x ^^^ rotr 11 x ^^^ rotr 25 x

/-- SHA-256 lower-case sigma 0. -/
def smallSigma0 (x : Nat) : Nat := rotr 7 x ^^^ rotr 18 x ^^^ shr 3 x

/-- SHA-256 lower-case sigma 1. -/
def smallSigma1 (x : Nat) : Nat := rotr 17 x ^^^ rotr 19 x ^^^ shr 10 x

/-- The 64 SHA-256 round constants of FIPS 180-4, in decimal. -/
def K256 : List Nat :=
  [1116352408, 1899447441, 3049323471, 3921009573, 961987163,
   1508970993, 2453635748, 2870763221, 3624381080, 310598401,
   607225278, 1426881987, 1925078388, 2162078206, 2614888103,
   3248222580, 3835390401, 4022224774, 264347078, 604807628,
   770255983, 1249150122, 1555081692, 1996064986, 2554220882,
   2821834349, 2952996808, 3210313671, 3336571891, 3584528711,
   113926993, 338241895, 666307205, 773529912, 1294757372,
   1396182291, 1695183700, 1986661051, 2177026350, 2456956037,
   2730485921, 2820302411, 3259730800, 3345764771, 3516065817,
   3600352804, 4094571909, 275423344, 430227734, 506948616,
   659060556, 883997877, 958139571, 1322822218, 1537002063,
   1747873779, 1955562222, 2024104815, 2227730452, 2361852424,
   2428436474, 2756734187, 3204031479, 3329325298]

/-- The eight SHA-256 initial hash words of FIPS 180-4, in decimal. -/
def H256 : List Nat :=
  [1779033703, 3144134277, 1013904242, 2773480762,
   1359893119, 2600822924, 528734635, 1541459225]

/-- Pack four big-endian bytes into one 32-bit word. -/
def bytesToWord (a b c d : Nat) : Nat := ((a * 256 + b) * 256 + c) * 256 + d

/-- Split a 64-byte block into sixteen big-endian 32-bit words. -/
def toWords : List Nat → List Nat
  | a :: b :: c :: d :: rest => bytesToWord a b c d :: toWords rest
  | _ => []

/-- Extend the sixteen message words of a block to the full 64-entry SHA-256
message schedule. -/
def msgSchedule (w0 : List Nat) : Array Nat := Id.run do
  let mut a := w0.toArray
  for i in [16:64] do
    let x := (smallSigma1 (a.getD (i - 2) 0) + a.getD (i - 7) 0 +
              smallSigma0 (a.getD (i - 15) 0) + a.getD (i - 16) 0) % M32
    a := a.push x
  return a

/-- One SHA-256 round: update the eight-word working state with one round
constant and one schedule word. -/
def round256 (s : List Nat) (kw : Nat × Nat) : List Nat :=
  match s with
  | [a, b, c, d, e, f, g, h] =>
    let t1 := (h + bigSigma1 e + chooseBits e f g + kw.1 + kw.2) % M32
    let t2 := (bigSigma0 a + majority a b c) % M32
    [(t1 + t2) % M32, a, b, c, (d + t1) % M32, e, f, g]
  | other => other

/-- Compress one 64-byte block into the running eight-word hash state. -/
def compress (st : List Nat) (block : List Nat) : List Nat :=
  let w := msgSchedule (toWords block)
  let final := (K256.zip w.toList).foldl round256 st
  (st.zip final).map (fun p => (p.1 + p.2) % M32)

/-- Big-endian byte expansion of a number into `k` bytes. -/
def natToBytesBE : Nat → Nat → List Nat
  | 0, _ => []
  | k + 1, n => natToBytesBE k (n / 256) ++ [n % 256]

/-- SHA-256 padding: append `0x80`, zero bytes up to 56 mod 64, and the
64-bit big-endian bit length. -/
def padMessage (msg : List Nat) : List Nat :=
  let padZeros := (55 + 64 - msg.length % 64) % 64
  msg ++ [128] ++ List.replicate padZeros 0 ++ natToBytesBE 8 (msg.length * 8)

/-- Split a byte list into successive chunks of 64 bytes, as
`file.read(64)` does in a loop; the final chunk may be shorter. -/
def readChunks (content : List Nat) : List (List Nat) :=
  if h : content = [] then []
  else content.take 64 :: readChunks (content.drop 64)
termination_by content.length
decreasing_by
  have hpos : 0 < content.length := List.length_pos.mpr h
  simp only [List.length_drop]
  omega

/-- The SHA-256 digest of a byte list, as a list of 32 bytes. -/
def sha256bytes (msg : List Nat) : List Nat :=
  let final := (readChunks (padMessage msg)).foldl compress H256
  final.foldr (fun w acc => natToBytesBE 4 w ++ acc) []

/-- One lowercase hexadecimal digit. -/
def hexDigit (n : Nat) : Char :=
  if n < 10 then Char.ofNat (48 + n) else Char.ofNat (87 + n)

/-- Lowercase hexadecimal rendering of a byte list. -/
def bytesToHex (bs : List Nat) : String :=
  String.mk (bs.foldr (fun b acc => hexDigit (b / 16 % 16) :: hexDigit (b % 16) :: acc) [])

/-- The lowercase hex SHA-256 digest of a byte list: the value
`hashlib.sha256(data).hexdigest()` returns. -/
def sha256hex (msg : List Nat) : String := bytesToHex (sha256bytes msg)

/-- The incremental state of a `hashlib.sha256()` object, modelled by the
byte stream absorbed so far: `update` concatenates and `hexdigest` hashes
the whole absorbed stream, which is the documented semantics of
`hashlib`'s incremental interface. -/
structure HashState where
  absorbed : List Nat
deriving Repr, DecidableEq

/-- `hashlib.sha256()`: a fresh hash object with nothing absorbed. -/
def sha256New : HashState := ⟨[]⟩

/-- `h.update(chunk)`: absorb further bytes. -/
def HashState.update (h : HashState) (chunk : List Nat) : HashState :=
  ⟨h.absorbed ++ chunk⟩

/-- `h.hexdigest()`: the hex digest of everything absorbed. -/
def HashState.hexdigest (h : HashState) : String := sha256hex h.absorbed

/-- `h.block_size` for SHA-256 is 64 bytes. -/
def HashState.block_size : Nat := 64

/-- `get_checksum_src(binary_data)` from `attachment.py`: one `update`
over the whole in-memory payload, then `hexdigest`. -/
def get_checksum_src (binary_data : List Nat) : String :=
  (sha256New.update binary_data).hexdigest

/-- The result of one HTTP fetch of an attachment: status code, raw
payload bytes, response headers, the raw response body text, and (for
non-2xx responses) the detail string of the JSON error object in the
body, carried pre-parsed because the spec fixes the body format to JSON
with an `error.detail` string field. -/
structure FetchResult where
  status : Nat
  data : List Nat
  headers : List (String × String)
  body : String
  errorDetail : String
deriving Repr, DecidableEq

/-- The remote ITSM system: every attachment identifier maps to the
fetch result its attachment endpoint returns. -/
def Remote : Type := String → FetchResult

/-- The local filesystem: a partial map from paths to byte contents. -/
def Fs : Type := String → Option (List Nat)

/-- Write `data` at path `p`, creating or truncating the file. -/
def fsWrite (fs : Fs) (p : String) (data : List Nat) : Fs :=
  fun q => if q = p then some data else fs q

/-- The `ServiceNowError` hierarchy raised by the collection's
`module_utils` and caught by `main`'s `except` clause. -/
inductive SnowError where
  | attachmentNotFound (detail : String)
  | remoteRequestFailed (status : Nat) (body : String)
deriving Repr, DecidableEq

/-- A Python exception as seen by `main`: either a `ServiceNowError`
(caught) or an ordinary exception such as `TypeError` or `OSError`
(not caught by `except errors.ServiceNowError`). -/
inductive PyError where
  | snow (e : SnowError)
  | typeError (msg : String)
  | ioError (msg : String)
deriving Repr, DecidableEq

/-- `str(e)` for a `ServiceNowError`: the human-readable message the
error carries. -/
def strOfError : SnowError → String
  | .attachmentNotFound detail => detail
  | .remoteRequestFailed _ body => body

/-- Modelled from the spec: `AttachmentClient.get_attachment` lives in
`plugins/module_utils/attachment.py`, which is not among the sources
here.  Per the spec, the client issues exactly one GET for the
identifier and persists on success, and the outcome is classified: 404
fails with `AttachmentNotFound` carrying the remote detail text from
the response body; any other non-200 status fails with
`RemoteRequestFailed` carrying status and raw body; on 200 the payload
bytes are written to the destination path (create or truncate) and the
response is returned.  Writing to a `None` destination path raises
`TypeError`, as `open(None, ...)` does in Python.  The returned trace
lists the identifiers fetched, in order. -/
def get_attachment (remote : Remote) (fs : Fs) (sysId : String)
    (dest : Option String) : Except PyError FetchResult × Fs × List String :=
  let r := remote sysId
  if r.status = 404 then
    (.error (.snow (.attachmentNotFound r.errorDetail)), fs, [sysId])
  else if r.status ≠ 200 then
    (.error (.snow (.remoteRequestFailed r.status r.body)), fs, [sysId])
  else
    match dest with
    | none =>
      (.error (.typeError "expected str, bytes or os.PathLike object, not NoneType"),
       fs, [sysId])
    | some p => (.ok r, fsWrite fs p r.data, [sysId])

/-- `get_checksum_dest(file_path)` from `attachment.py`: open the file,
read it in `block_size` chunks in a loop, feed each chunk to the hash,
and return the hex digest.  A `None` path raises `TypeError` from
`open`; a missing file raises `FileNotFoundError` (an `OSError`). -/
def get_checksum_dest (fs : Fs) (file_path : Option String) : Except PyError String :=
  match file_path with
  | none => .error (.typeError "expected str, bytes or os.PathLike object, not NoneType")
  | some p =>
    match fs p with
    | none => .error (.ioError "No such file or directory")
    | some content =>
      .ok ((readChunks content).foldl HashState.update sha256New).hexdigest

/-- The module parameters after argument validation: `sys_id` and `dest`
from the argument spec, plus the check-mode flag the framework passes
because the module declares `supports_check_mode=True`. -/
structure Params where
  sys_id : String
  dest : Option String
  check_mode : Bool
deriving Repr

/-- The outcome of `run`: its return value (or the exception it raised),
the filesystem as the run left it, and the trace of fetched identifiers. -/
structure RunOut where
  result : Except PyError (FetchResult × String × String)
  fs : Fs
  trace : List String

/-- `run(module, attachment_client)` from `attachment.py`: call
`get_attachment(sys_id, dest)`, compute `checksum_src` over the payload
bytes and `checksum_dest` over the persisted file, and return
`(response, checksum_src, checksum_dest)`.  Exceptions propagate. -/
def run (remote : Remote) (fs : Fs) (p : Params) : RunOut :=
  match get_attachment remote fs p.sys_id p.dest with
  | (.error e, fs1, tr) => ⟨.error e, fs1, tr⟩
  | (.ok response, fs1, tr) =>
    let checksum_src := get_checksum_src response.data
    match get_checksum_dest fs1 p.dest with
    | .error e => ⟨.error e, fs1, tr⟩
    | .ok checksum_dest => ⟨.ok (response, checksum_src, checksum_dest), fs1, tr⟩

/-- A value in the flat result mapping the module reports. -/
inductive RVal where
  | bool (b : Bool)
  | str (s : String)
  | nat (n : Nat)
deriving Repr, DecidableEq

/-- How one invocation of `main` ends: `module.exit_json(...)` with a
flat key/value record, `module.fail_json(msg=...)`, or an uncaught
Python exception escaping `main`. -/
inductive ModuleResult where
  | exited (record : List (String × RVal))
  | failed (msg : String)
  | crashed (e : PyError)
deriving Repr, DecidableEq

/-- True exactly for an `exit_json` outcome. -/
def ModuleResult.isExited : ModuleResult → Bool
  | .exited _ => true
  | _ => false

/-- The outcome of `main`: how it ended, the filesystem it left behind,
and the trace of fetched identifiers. -/
structure MainOut where
  result : ModuleResult
  fs : Fs
  trace : List String

/-- `main()` declares `supports_check_mode=True` on the `AnsibleModule`. -/
def supports_check_mode : Bool := true

/-- In the argument spec of `main()`, `dest=dict(type="str")` carries no
`required` flag. -/
def dest_arg_required : Bool := false

/-- In the argument spec of `main()`, `dest=dict(type="str")` carries no
`default`. -/
def dest_arg_default : Option String := none

/-- Modelled from the spec: argument validation is done by the excluded
automation front end (`AnsibleModule`).  A parameter that is not
`required` passes validation when omitted and reaches the module with
its default, `None` when no default is declared. -/
def validate_dest (provided : Option String) : Except String (Option String) :=
  match provided with
  | some v => .ok (some v)
  | none =>
    if dest_arg_required then .error "missing required arguments: dest"
    else .ok dest_arg_default

/-- The `try` body and `except` clause of `main()` from `attachment.py`:
run the transfer; on success `exit_json` with `changed=True`, the two
checksums and the HTTP status code; on `ServiceNowError`
`fail_json(msg=str(e))`; any other exception escapes uncaught. -/
def main (remote : Remote) (fs : Fs) (p : Params) : MainOut :=
  let o := run remote fs p
  match o.result with
  | .ok (response, checksum_src, checksum_dest) =>
    ⟨.exited [("changed", .bool true),
              ("checksum_dest", .str checksum_dest),
              ("checksum_src", .str checksum_src),
              ("status_code", .nat response.status)],
     o.fs, o.trace⟩
  | .error (.snow e) => ⟨.failed (strOfError e), o.fs, o.trace⟩
  | .error e => ⟨.crashed e, o.fs, o.trace⟩

/-- A full invocation as the front end drives it: validate the provided
`dest` argument, then enter `main` with the validated parameters. -/
def invoke (remote : Remote) (fs : Fs) (sysId : String)
    (providedDest : Option String) (checkMode : Bool) : Except String MainOut :=
  match validate_dest providedDest with
  | .error msg => .error msg
  | .ok d => .ok (main remote fs ⟨sysId, d, checkMode⟩)

/-- Look a key up in the record of an `exit_json` outcome; `none` for a
missing key or a non-`exit_json` outcome. -/
def ModuleResult.lookupField : ModuleResult → String → Option RVal
  | .exited rec, k => rec.lookup k
  | _, _ => none

/-- The keys of an `exit_json` record, in order; `[]` otherwise. -/
def ModuleResult.fieldKeys : ModuleResult → List String
  | .exited rec => rec.map Prod.fst
  | _ => []

/-- True exactly for a structured `fail_json` failure. -/
def ModuleResult.isFailed : ModuleResult → Bool
  | .failed _ => true
  | _ => false

/-- How `main`'s error handling disposes of an exception raised inside
the `try` body: a `ServiceNowError` is caught and becomes a structured
`fail_json` failure carrying `str(e)`; every other exception escapes
`main` uncaught. -/
def handleError : PyError → ModuleResult
  | .snow se => .failed (strOfError se)
  | e => .crashed e

/-- A concrete remote whose every attachment fetch answers 200 with the
two payload bytes of "hi" and no headers. -/
def wRemoteOk : Remote := fun _ => ⟨200, [104, 105], [], "", ""⟩

/-- A concrete remote whose every attachment fetch answers 404 with a
JSON error body whose detail reads "Attachment not found". -/
def wRemote404 : Remote :=
  fun _ => ⟨404, [], [], "a JSON error body", "Attachment not found"⟩

/-- A concrete empty filesystem. -/
def wFsEmpty : Fs := fun _ => none

/-- A concrete filesystem holding the bytes 1, 2, 3 at one path. -/
def wFsFile : Fs := fun q => if q = "/tmp/f" then some [1, 2, 3] else none

/-- A concrete filesystem whose destination file already holds exactly
the payload `wRemoteOk` serves. -/
def wFsPre : Fs :=
  fun q => if q = "/tmp/sn-attachment" then some [104, 105] else none

/-- Concrete module parameters with a destination path set. -/
def wParams : Params := ⟨"a1", some "/tmp/sn-attachment", false⟩

end Attachment

namespace Attachment

/-- Folding `update` over a chunk list absorbs the concatenation of the
chunks, in order. -/
lemma foldl_update_absorbed (chunks : List (List Nat)) (h : HashState) :
    (chunks.foldl HashState.update h).absorbed = h.absorbed ++ chunks.flatten := by
  induction chunks generalizing h with
  | nil => simp
  | cons c cs ih => simp [List.foldl, ih, HashState.update, List.append_assoc]

/-- Concatenating the 64-byte read chunks gives back the file content. -/
lemma readChunks_join (content : List Nat) : (readChunks content).flatten = content := by
  induction content using readChunks.induct with
  | case1 => simp [readChunks]
  | case2 content h ih =>
    rw [readChunks]
    simp [h, ih]

/-- Evaluating `get_checksum_dest` on an existing file yields the SHA-256
hex digest of its whole content. -/
lemma get_checksum_dest_eval (fs : Fs) (p : String) (content : List Nat)
    (hf : fs p = some content) :
    get_checksum_dest fs (some p) = .ok (sha256hex content) := by
  simp [get_checksum_dest, hf, HashState.hexdigest, foldl_update_absorbed,
    sha256New, readChunks_join]

/-- `get_checksum_src` is the SHA-256 hex digest of the payload. -/
lemma get_checksum_src_eval (data : List Nat) :
    get_checksum_src data = sha256hex data := by
  simp [get_checksum_src, HashState.update, HashState.hexdigest, sha256New]

/-- On a 200 status with a destination path, `get_attachment` persists
the payload and returns the response, fetching exactly once. -/
lemma get_attachment_success (remote : Remote) (fs : Fs) (sysId : String)
    (d : String) (hs : (remote sysId).status = 200) :
    get_attachment remote fs sysId (some d) =
      (.ok (remote sysId), fsWrite fs d (remote sysId).data, [sysId]) := by
  simp [get_attachment, hs]

/-- `get_attachment` issues exactly one fetch, whatever the outcome. -/
lemma get_attachment_trace (remote : Remote) (fs : Fs) (sysId : String)
    (dest : Option String) :
    (get_attachment remote fs sysId dest).2.2 = [sysId] := by
  unfold get_attachment
  by_cases h1 : (remote sysId).status = 404
  · simp [h1]
  · by_cases h2 : (remote sysId).status = 200
    · cases dest <;> simp [h1, h2]
    · simp [h1, h2]

/-- Full evaluation of a successful `run`: the response, the digest of
the payload as both checksums, the overwritten destination file, and a
single fetch. -/
lemma run_success (remote : Remote) (fs : Fs) (p : Params) (d : String)
    (hd : p.dest = some d) (hs : (remote p.sys_id).status = 200) :
    run remote fs p =
      ⟨.ok (remote p.sys_id, sha256hex (remote p.sys_id).data,
            sha256hex (remote p.sys_id).data),
       fsWrite fs d (remote p.sys_id).data, [p.sys_id]⟩ := by
  have hw : fsWrite fs d (remote p.sys_id).data d = some (remote p.sys_id).data := by
    simp [fsWrite]
  have hcd := get_checksum_dest_eval (fsWrite fs d (remote p.sys_id).data) d
    (remote p.sys_id).data hw
  rw [run, hd, get_attachment_success remote fs p.sys_id d hs]
  simp [hd, hcd, get_checksum_src_eval]

/-- Full evaluation of a successful `main`. -/
lemma main_success (remote : Remote) (fs : Fs) (p : Params) (d : String)
    (hd : p.dest = some d) (hs : (remote p.sys_id).status = 200) :
    main remote fs p =
      ⟨.exited [("changed", .bool true),
                ("checksum_dest", .str (sha256hex (remote p.sys_id).data)),
                ("checksum_src", .str (sha256hex (remote p.sys_id).data)),
                ("status_code", .nat (remote p.sys_id).status)],
       fsWrite fs d (remote p.sys_id).data, [p.sys_id]⟩ := by
  rw [main, run_success remote fs p d hd hs]

/-- `run` issues exactly one fetch, whatever the outcome. -/
lemma run_trace (remote : Remote) (fs : Fs) (p : Params) :
    (run remote fs p).trace = [p.sys_id] := by
  have h := get_attachment_trace remote fs p.sys_id p.dest
  rw [run]
  rcases hg : get_attachment remote fs p.sys_id p.dest with ⟨res, fs1, tr⟩
  rw [hg] at h
  rcases res with e | r
  · simpa using h
  · cases hc : get_checksum_dest fs1 p.dest <;> simpa [hc] using h

/-- C1: for every successful transfer — the fetch returns the payload
bytes and the persist step writes exactly those bytes to the destination
path — the source checksum over the in-memory payload equals the
destination checksum over the persisted file, and both are the SHA-256
hex digest of the payload, i.e. they are computed with the same hash
algorithm. -/
theorem C1_checksums_equal (remote : Remote) (fs : Fs) (p : Params) (d : String)
    (hd : p.dest = some d) (hs : (remote p.sys_id).status = 200) :
    (run remote fs p).fs d = some (remote p.sys_id).data ∧
    (run remote fs p).result =
      .ok (remote p.sys_id, sha256hex (remote p.sys_id).data,
           sha256hex (remote p.sys_id).data) := by
  rw [run_success remote fs p d hd hs]
  simp [fsWrite]

/-- Witness for C1 at a concrete remote, filesystem and parameter set. -/
theorem C1_witness :
    wParams.dest = some "/tmp/sn-attachment" ∧
    (wRemoteOk wParams.sys_id).status = 200 ∧
    ((run wRemoteOk wFsEmpty wParams).fs "/tmp/sn-attachment" =
      some (wRemoteOk wParams.sys_id).data ∧
     (run wRemoteOk wFsEmpty wParams).result =
      .ok (wRemoteOk wParams.sys_id, sha256hex (wRemoteOk wParams.sys_id).data,
           sha256hex (wRemoteOk wParams.sys_id).data)) :=
  ⟨rfl, rfl, C1_checksums_equal wRemoteOk wFsEmpty wParams "/tmp/sn-attachment" rfl rfl⟩

/-- C2: for every file content, the destination checksum — computed by
reading the file in 64-byte chunks and feeding each chunk to the hash in
order — equals the digest `get_checksum_src` produces over the whole
content in one update: the streaming hash and the one-shot hash agree. -/
theorem C2_streaming_hash_eq_oneshot (fs : Fs) (p : String) (content : List Nat)
    (hf : fs p = some content) :
    get_checksum_dest fs (some p) = .ok (get_checksum_src content) := by
  rw [get_checksum_dest_eval fs p content hf, get_checksum_src_eval]

/-- Witness for C2 at a concrete three-byte file. -/
theorem C2_witness :
    wFsFile "/tmp/f" = some [1, 2, 3] ∧
    get_checksum_dest wFsFile (some "/tmp/f") = .ok (get_checksum_src [1, 2, 3]) :=
  ⟨rfl, C2_streaming_hash_eq_oneshot wFsFile "/tmp/f" [1, 2, 3] rfl⟩

/-- C3 counterexample: a concrete successful transfer whose `exit_json`
record contains neither a size field nor a message field, refuting the
claim that the result includes `sizeBytes` and `message = "OK"`. -/
theorem C3_counterexample :
    (main wRemoteOk wFsEmpty wParams).result.isExited = true ∧
    (main wRemoteOk wFsEmpty wParams).result.lookupField "size" = none ∧
    (main wRemoteOk wFsEmpty wParams).result.lookupField "msg" = none := by
  rw [main_success wRemoteOk wFsEmpty wParams "/tmp/sn-attachment" rfl rfl]
  exact ⟨rfl, rfl, rfl⟩

/-- C3 (amended): for every successful transfer the module reports
exactly `changed=True`, the two checksums and the HTTP status code; it
reports no size field and no message field. -/
theorem C3_amended_result_fields (remote : Remote) (fs : Fs) (p : Params)
    (d : String) (hd : p.dest = some d) (hs : (remote p.sys_id).status = 200) :
    (main remote fs p).result =
      .exited [("changed", .bool true),
               ("checksum_dest", .str (sha256hex (remote p.sys_id).data)),
               ("checksum_src", .str (sha256hex (remote p.sys_id).data)),
               ("status_code", .nat (remote p.sys_id).status)] ∧
    (main remote fs p).result.lookupField "size" = none ∧
    (main remote fs p).result.lookupField "msg" = none := by
  rw [main_success remote fs p d hd hs]
  exact ⟨rfl, rfl, rfl⟩

/-- Witness for the amended C3 at a concrete input. -/
theorem C3_amended_witness :
    wParams.dest = some "/tmp/sn-attachment" ∧
    (wRemoteOk wParams.sys_id).status = 200 ∧
    ((main wRemoteOk wFsPre wParams).result =
      .exited [("changed", .bool true),
               ("checksum_dest", .str (sha256hex (wRemoteOk wParams.sys_id).data)),
               ("checksum_src", .str (sha256hex (wRemoteOk wParams.sys_id).data)),
               ("status_code", .nat (wRemoteOk wParams.sys_id).status)] ∧
     (main wRemoteOk wFsPre wParams).result.lookupField "size" = none ∧
     (main wRemoteOk wFsPre wParams).result.lookupField "msg" = none) :=
  ⟨rfl, rfl, C3_amended_result_fields wRemoteOk wFsPre wParams "/tmp/sn-attachment" rfl rfl⟩

/-- C4: a 404 fetch fails with `AttachmentNotFound` carrying the remote
detail text from the response body; `main` surfaces exactly that detail
text, produces no success record, and does not crash with a generic
uncaught failure. -/
theorem C4_not_found (remote : Remote) (fs : Fs) (p : Params)
    (hs : (remote p.sys_id).status = 404) :
    (run remote fs p).result =
      .error (.snow (.attachmentNotFound (remote p.sys_id).errorDetail)) ∧
    (main remote fs p).result = .failed (remote p.sys_id).errorDetail ∧
    (main remote fs p).result.isExited = false := by
  have hg : get_attachment remote fs p.sys_id p.dest =
      (.error (.snow (.attachmentNotFound (remote p.sys_id).errorDetail)),
       fs, [p.sys_id]) := by
    simp [get_attachment, hs]
  have hr : run remote fs p =
      ⟨.error (.snow (.attachmentNotFound (remote p.sys_id).errorDetail)),
       fs, [p.sys_id]⟩ := by
    rw [run, hg]
  rw [main, hr]
  exact ⟨rfl, rfl, rfl⟩

/-- Witness for C4 at a concrete 404 remote. -/
theorem C4_witness :
    (wRemote404 wParams.sys_id).status = 404 ∧
    ((run wRemote404 wFsEmpty wParams).result =
      .error (.snow (.attachmentNotFound (wRemote404 wParams.sys_id).errorDetail)) ∧
     (main wRemote404 wFsEmpty wParams).result =
      .failed (wRemote404 wParams.sys_id).errorDetail ∧
     (main wRemote404 wFsEmpty wParams).result.isExited = false) :=
  ⟨rfl, C4_not_found wRemote404 wFsEmpty wParams rfl⟩

/-- C5 counterexample: a concrete 200 response carrying no metadata
header at all still succeeds, refuting the claim that absent size
metadata makes the operation fail with `MalformedMetadata`. -/
theorem C5_counterexample :
    (wRemoteOk wParams.sys_id).headers = [] ∧
    (main wRemoteOk wFsEmpty wParams).result.isExited = true := by
  refine ⟨rfl, ?_⟩
  rw [main_success wRemoteOk wFsEmpty wParams "/tmp/sn-attachment" rfl rfl]
  rfl

/-- C5 (amended): the module never reads the size metadata: a 200
response succeeds whatever its headers or body, the result is
independent of them, and it carries no size field at all (neither
validated nor defaulted to zero). -/
theorem C5_amended_metadata_ignored (remote remote2 : Remote) (fs : Fs)
    (p : Params) (d : String) (hd : p.dest = some d)
    (hs : (remote p.sys_id).status = 200)
    (hstat : (remote2 p.sys_id).status = (remote p.sys_id).status)
    (hdata : (remote2 p.sys_id).data = (remote p.sys_id).data) :
    (main remote fs p).result.isExited = true ∧
    (main remote fs p).result.lookupField "size" = none ∧
    (main remote2 fs p).result = (main remote fs p).result := by
  have hs2 : (remote2 p.sys_id).status = 200 := by rw [hstat, hs]
  rw [main_success remote fs p d hd hs, main_success remote2 fs p d hd hs2,
    hstat, hdata, hs]
  exact ⟨rfl, rfl, rfl⟩

/-- Witness for the amended C5: a remote with a populated metadata
header and one with none produce the same successful result. -/
theorem C5_amended_witness :
    wParams.dest = some "/tmp/sn-attachment" ∧
    ((fun _ => ⟨200, [104, 105], [("x-meta", "11")], "", ""⟩ : Remote)
        wParams.sys_id).status = 200 ∧
    (wRemoteOk wParams.sys_id).status =
      ((fun _ => ⟨200, [104, 105], [("x-meta", "11")], "", ""⟩ : Remote)
        wParams.sys_id).status ∧
    (wRemoteOk wParams.sys_id).data =
      ((fun _ => ⟨200, [104, 105], [("x-meta", "11")], "", ""⟩ : Remote)
        wParams.sys_id).data ∧
    ((main (fun _ => ⟨200, [104, 105], [("x-meta", "11")], "", ""⟩) wFsEmpty
        wParams).result.isExited = true ∧
     (main (fun _ => ⟨200, [104, 105], [("x-meta", "11")], "", ""⟩) wFsEmpty
        wParams).result.lookupField "size" = none ∧
     (main wRemoteOk wFsEmpty wParams).result =
       (main (fun _ => ⟨200, [104, 105], [("x-meta", "11")], "", ""⟩) wFsEmpty
         wParams).result) :=
  ⟨rfl, rfl, rfl, rfl,
   C5_amended_metadata_ignored
     (fun _ => ⟨200, [104, 105], [("x-meta", "11")], "", ""⟩) wRemoteOk
     wFsEmpty wParams "/tmp/sn-attachment" rfl rfl rfl rfl⟩

/-- C6 counterexample: a concrete failing request — `dest` omitted, the
remote answering 200 — whose failure is an uncaught `TypeError` crash:
it is neither a structured `fail_json` failure with a message nor a
success record, refuting the claim that every failing request surfaces
to the caller as a structured error. -/
theorem C6_counterexample :
    (run wRemoteOk wFsEmpty ⟨"a1", none, false⟩).result =
      .error (.typeError "expected str, bytes or os.PathLike object, not NoneType") ∧
    (main wRemoteOk wFsEmpty ⟨"a1", none, false⟩).result.isFailed = false ∧
    (main wRemoteOk wFsEmpty ⟨"a1", none, false⟩).result.isExited = false :=
  ⟨rfl, rfl, rfl⟩

/-- C6 (amended): every failing request is terminal — exactly one fetch
is attempted (no internal retry), no success record is produced, and no
rollback or cleanup is performed (the filesystem stays exactly as the
failing run left it) — but only a `ServiceNowError` failure is surfaced
as a structured `fail_json` error carrying its human-readable message;
any other exception, such as the `TypeError` from an omitted `dest`,
escapes the module's handler uncaught. -/
theorem C6_amended_errors_terminal (remote : Remote) (fs : Fs) (p : Params)
    (e : PyError) (he : (run remote fs p).result = .error e) :
    (main remote fs p).trace = [p.sys_id] ∧
    (main remote fs p).result = handleError e ∧
    (main remote fs p).result.isExited = false ∧
    (main remote fs p).fs = (run remote fs p).fs := by
  have ht := run_trace remote fs p
  rw [main, he]
  cases e with
  | snow se => exact ⟨ht, rfl, rfl, rfl⟩
  | typeError m => exact ⟨ht, rfl, rfl, rfl⟩
  | ioError m => exact ⟨ht, rfl, rfl, rfl⟩

/-- Witness for the amended C6 at a concrete 404 failure. -/
theorem C6_amended_witness :
    (run wRemote404 wFsFile wParams).result =
      .error (.snow (.attachmentNotFound "Attachment not found")) ∧
    ((main wRemote404 wFsFile wParams).trace = [wParams.sys_id] ∧
     (main wRemote404 wFsFile wParams).result =
       handleError (.snow (.attachmentNotFound "Attachment not found")) ∧
     (main wRemote404 wFsFile wParams).result.isExited = false ∧
     (main wRemote404 wFsFile wParams).fs = (run wRemote404 wFsFile wParams).fs) :=
  ⟨rfl, C6_amended_errors_terminal wRemote404 wFsFile wParams
    (.snow (.attachmentNotFound "Attachment not found")) rfl⟩

/-- C7: re-running a successful transfer against the unchanged remote
overwrites the destination file with the same bytes and returns the
identical response and checksum pair. -/
theorem C7_idempotent (remote : Remote) (fs : Fs) (p : Params) (d : String)
    (hd : p.dest = some d) (hs : (remote p.sys_id).status = 200) :
    (run remote (run remote fs p).fs p).result = (run remote fs p).result ∧
    (run remote (run remote fs p).fs p).fs d = some (remote p.sys_id).data := by
  rw [run_success remote fs p d hd hs]
  rw [run_success remote (fsWrite fs d (remote p.sys_id).data) p d hd hs]
  simp [fsWrite]

/-- Witness for C7 at a concrete input. -/
theorem C7_witness :
    wParams.dest = some "/tmp/sn-attachment" ∧
    (wRemoteOk wParams.sys_id).status = 200 ∧
    ((run wRemoteOk (run wRemoteOk wFsEmpty wParams).fs wParams).result =
       (run wRemoteOk wFsEmpty wParams).result ∧
     (run wRemoteOk (run wRemoteOk wFsEmpty wParams).fs wParams).fs
       "/tmp/sn-attachment" = some (wRemoteOk wParams.sys_id).data) :=
  ⟨rfl, rfl, C7_idempotent wRemoteOk wFsEmpty wParams "/tmp/sn-attachment" rfl rfl⟩

/-- C8 counterexample: a concrete successful transfer whose result
record carries no elapsed-time field, refuting the claim that a
(non-negative, rounded) `elapsedSeconds` is reported. -/
theorem C8_counterexample :
    (main wRemoteOk wFsEmpty wParams).result.isExited = true ∧
    (main wRemoteOk wFsEmpty wParams).result.lookupField "elapsed" = none := by
  rw [main_success wRemoteOk wFsEmpty wParams "/tmp/sn-attachment" rfl rfl]
  exact ⟨rfl, rfl⟩

/-- C8 (amended): the module measures no elapsed time: a successful
result's record holds exactly the keys `changed`, `checksum_dest`,
`checksum_src`, `status_code`, and in particular no elapsed field, so no
elapsed-time value (non-negative, rounded or otherwise) is ever
reported. -/
theorem C8_amended_no_elapsed (remote : Remote) (fs : Fs) (p : Params)
    (d : String) (hd : p.dest = some d) (hs : (remote p.sys_id).status = 200) :
    (main remote fs p).result.fieldKeys =
      ["changed", "checksum_dest", "checksum_src", "status_code"] ∧
    (main remote fs p).result.lookupField "elapsed" = none := by
  rw [main_success remote fs p d hd hs]
  exact ⟨rfl, rfl⟩

/-- Witness for the amended C8 at a concrete input. -/
theorem C8_amended_witness :
    wParams.dest = some "/tmp/sn-attachment" ∧
    (wRemoteOk wParams.sys_id).status = 200 ∧
    ((main wRemoteOk wFsEmpty wParams).result.fieldKeys =
       ["changed", "checksum_dest", "checksum_src", "status_code"] ∧
     (main wRemoteOk wFsEmpty wParams).result.lookupField "elapsed" = none) :=
  ⟨rfl, rfl, C8_amended_no_elapsed wRemoteOk wFsEmpty wParams "/tmp/sn-attachment" rfl rfl⟩

/-- C9: the module declares `supports_check_mode=True` but never
consults check mode: the outcome is identical with the flag on or off,
the fetch and the file write happen unconditionally, and a successful
run reports `changed=True` even when the destination already held the
identical content (the hypothesis places the payload at the destination
beforehand). -/
theorem C9_check_mode_ignored (remote : Remote) (fs : Fs) (sid d : String)
    (cm : Bool) (hs : (remote sid).status = 200)
    (hpre : fs d = some (remote sid).data) :
    supports_check_mode = true ∧
    main remote fs ⟨sid, some d, cm⟩ = main remote fs ⟨sid, some d, false⟩ ∧
    (main remote fs ⟨sid, some d, cm⟩).trace = [sid] ∧
    (main remote fs ⟨sid, some d, cm⟩).fs d = some (remote sid).data ∧
    (main remote fs ⟨sid, some d, cm⟩).result.lookupField "changed" =
      some (.bool true) := by
  have hm := main_success remote fs ⟨sid, some d, cm⟩ d rfl hs
  refine ⟨rfl, rfl, ?_, ?_, ?_⟩ <;> rw [hm] <;> first | rfl | simp [fsWrite]

/-- Witness for C9: check mode on, destination already identical. -/
theorem C9_witness :
    (wRemoteOk "a1").status = 200 ∧
    wFsPre "/tmp/sn-attachment" = some (wRemoteOk "a1").data ∧
    (supports_check_mode = true ∧
     main wRemoteOk wFsPre ⟨"a1", some "/tmp/sn-attachment", true⟩ =
       main wRemoteOk wFsPre ⟨"a1", some "/tmp/sn-attachment", false⟩ ∧
     (main wRemoteOk wFsPre ⟨"a1", some "/tmp/sn-attachment", true⟩).trace = ["a1"] ∧
     (main wRemoteOk wFsPre ⟨"a1", some "/tmp/sn-attachment", true⟩).fs
       "/tmp/sn-attachment" = some (wRemoteOk "a1").data ∧
     (main wRemoteOk wFsPre ⟨"a1", some "/tmp/sn-attachment", true⟩).result.lookupField
       "changed" = some (.bool true)) :=
  ⟨rfl, rfl, C9_check_mode_ignored wRemoteOk wFsPre "a1" "/tmp/sn-attachment"
    true rfl rfl⟩

/-- C10: `dest` is declared optional with no default and no required
flag, so an invocation omitting it passes validation and reaches `run`
with `dest = None`; there, on an otherwise-successful 200 fetch, the
failure is a `TypeError` raised at the fetch/persist step, which escapes
the module's `ServiceNowError` handler uncaught instead of being
rejected up front as a missing required parameter. -/
theorem C10_dest_optional (remote : Remote) (fs : Fs) (sid : String)
    (cm : Bool) (hs : (remote sid).status = 200) :
    dest_arg_required = false ∧
    dest_arg_default = none ∧
    validate_dest none = .ok none ∧
    invoke remote fs sid none cm = .ok (main remote fs ⟨sid, none, cm⟩) ∧
    (main remote fs ⟨sid, none, cm⟩).result =
      .crashed (.typeError "expected str, bytes or os.PathLike object, not NoneType") := by
  have hg : get_attachment remote fs sid none =
      (.error (.typeError "expected str, bytes or os.PathLike object, not NoneType"),
       fs, [sid]) := by
    simp [get_attachment, hs]
  have hr : run remote fs ⟨sid, none, cm⟩ =
      ⟨.error (.typeError "expected str, bytes or os.PathLike object, not NoneType"),
       fs, [sid]⟩ := by
    rw [run]
    exact hg ▸ rfl
  refine ⟨rfl, rfl, rfl, rfl, ?_⟩
  rw [main, hr]

/-- Witness for C10 at a concrete 200 remote with `dest` omitted. -/
theorem C10_witness :
    (wRemoteOk "a1").status = 200 ∧
    (dest_arg_required = false ∧
     dest_arg_default = none ∧
     validate_dest none = .ok none ∧
     invoke wRemoteOk wFsEmpty "a1" none false =
       .ok (main wRemoteOk wFsEmpty ⟨"a1", none, false⟩) ∧
     (main wRemoteOk wFsEmpty ⟨"a1", none, false⟩).result =
       .crashed (.typeError "expected str, bytes or os.PathLike object, not NoneType")) :=
  ⟨rfl, C10_dest_optional wRemoteOk wFsEmpty "a1" false rfl⟩

end Attachment
